import Mathlib

/-
Shallow embedding of the SR830 measurement automation scripts
(src/automation/sr830_freq.py and src/automation/sr830_sweep.py).

Python floats are modelled as exact rationals; Python ints as integers.
Fallible operations (exceptions) are modelled with Option/Except or with an
explicit Faulted outcome where the source catches the exception itself.
-/

set_option autoImplicit false

namespace Sr830

/-! ## Sliding window (collections.deque with maxlen) -/

/-- Appending to a `collections.deque` with `maxlen = cap`: the result keeps
the most recent `cap` elements of `xs ++ [x]` (the oldest is evicted once the
deque is full). -/
def dqAppend {α : Type} (cap : Nat) (xs : List α) (x : α) : List α :=
  (xs ++ [x]).drop ((xs ++ [x]).length - cap)

/-- Python `max(...)` over a nonempty sequence of floats. Every call site in
the source applies it to a window that has just received an element, so the
`[]` case (which would raise `ValueError` in Python) is never reached; the
junk value `0` there is unreachable. -/
def listMax : List ℚ → ℚ
  | [] => 0
  | x :: xs => xs.foldl max x

/-- Python `min(...)` over a nonempty sequence of floats (see `listMax`). -/
def listMin : List ℚ → ℚ
  | [] => 0
  | x :: xs => xs.foldl min x

/-! ## AcFreqProcedure data model -/

/-- One successful acquisition from the instrument on a tick:
`R`, `THETA` from `measure_multiple(('R', 'THETA'))` and the raw
`lia_status_byte`. -/
structure Reading where
  r : ℚ
  theta : ℚ
  status : Nat
  deriving DecidableEq

/-- `cur_meas['OVF'] = (int(self.lia.lia_status_byte) & 0x7) > 0`. -/
def ovfFlag (rd : Reading) : Bool :=
  decide (0 < rd.status % 8)

/-- The `meas_window` dict of `AcFreqProcedure`: one fixed-capacity deque per
column.  Field order matches `COL_T, COL_R, COL_THETA, 'OVF', COL_RS,
COL_DEV, COL_THETAS`. -/
structure MeasState where
  tWin : List ℚ
  rWin : List ℚ
  thetaWin : List ℚ
  ovfWin : List Bool
  rsWin : List ℚ
  devWin : List ℚ
  thetasWin : List ℚ
  deriving DecidableEq

/-- The empty window state created by `startup`. -/
def st0 : MeasState := ⟨[], [], [], [], [], [], []⟩

/-- The way one tick of `execute_sample` ends the event loop, plus the spec's
names for the terminal outcomes.  `Faulted` covers any exception caught by
the tick's catch-all handler (stored in `self.exception`, later reported as
`Procedure.FAILED`). -/
inductive Verdict where
  | Continue
  | Converged (meanMag meanPhase dev : ℚ)
  | TimedOut (meanMag meanPhase : ℚ)
  | Aborted
  | Faulted
  deriving DecidableEq

/-- The configuration a single sample loop runs with: the auto-generated
`auto_tau`, `auto_tsamp`, `auto_timeout`, the deque capacity
`window_samples`, and the user `tolerance` parameter. -/
structure LoopConfig where
  tau : ℚ
  tsamp : ℚ
  timeout : ℚ
  cap : Nat
  tol : ℚ
  deriving DecidableEq

/-! ## One tick of AcFreqProcedure.execute_sample -/

/-- `get_last_time`: the last entry of the time column, `None` when empty. -/
def lastT (st : MeasState) : Option ℚ :=
  st.tWin.getLast?

/-- `cur_meas[COL_T]`: previous time plus `auto_tsamp`, or `0` on the first
tick. -/
def curT (cfg : LoopConfig) (st : MeasState) : ℚ :=
  match lastT st with
  | some t => t + cfg.tsamp
  | none => 0

/-- The time column after this tick's append. -/
def winT (cfg : LoopConfig) (st : MeasState) : List ℚ :=
  dqAppend cfg.cap st.tWin (curT cfg st)

/-- The magnitude column after this tick's append. -/
def winR (cfg : LoopConfig) (st : MeasState) (rd : Reading) : List ℚ :=
  dqAppend cfg.cap st.rWin rd.r

/-- The phase column after this tick's append. -/
def winTheta (cfg : LoopConfig) (st : MeasState) (rd : Reading) : List ℚ :=
  dqAppend cfg.cap st.thetaWin rd.theta

/-- The overload column after this tick's append. -/
def winOvf (cfg : LoopConfig) (st : MeasState) (rd : Reading) : List Bool :=
  dqAppend cfg.cap st.ovfWin (ovfFlag rd)

/-- `cur_meas[COL_RS] = sum(rr) / len(rr)` over the post-append magnitude
window. -/
def meanR (cfg : LoopConfig) (st : MeasState) (rd : Reading) : ℚ :=
  (winR cfg st rd).sum / ((winR cfg st rd).length : ℚ)

/-- `abs_dev = max(abs(mean - max(window)), abs(mean - min(window)))`. -/
def absDev (cfg : LoopConfig) (st : MeasState) (rd : Reading) : ℚ :=
  max |meanR cfg st rd - listMax (winR cfg st rd)|
      |meanR cfg st rd - listMin (winR cfg st rd)|

/-- `cur_meas[COL_DEV] = 100 * abs_dev / abs(cur_meas[COL_RS])`.  The source
performs this division unguarded; the zero-mean case is handled separately in
`tick_core` because in Python it raises `ZeroDivisionError`. -/
def devPct (cfg : LoopConfig) (st : MeasState) (rd : Reading) : ℚ :=
  100 * absDev cfg st rd / |meanR cfg st rd|

/-- `cur_meas[COL_THETAS] = sum(tt) / len(tt)` over the post-append phase
window. -/
def meanTheta (cfg : LoopConfig) (st : MeasState) (rd : Reading) : ℚ :=
  (winTheta cfg st rd).sum / ((winTheta cfg st rd).length : ℚ)

/-- The body of `AcFreqProcedure.execute_sample` up to (and excluding) the
final `should_stop` check.  Returns the updated window state and `some v`
when the tick quits the event loop with outcome `v` before reaching that
check, `none` when it falls through to it.

Branches, in source order:
* mean magnitude `0` → `ZeroDivisionError` in the deviation division
  (line 247), caught by the handler → `Faulted`; only the four columns
  already appended (lines 236-237) are updated;
* window full (`is_meas_window_full`, post-append) and previous time at
  least `10 * auto_tau` and no overload in the window:
  deviation within tolerance → quit (`Converged`), else elapsed time at
  least `auto_timeout` → quit (`TimedOut`);
* a full window on the very first tick would compare `None >= 10*auto_tau`,
  a `TypeError` caught by the handler → `Faulted` (only reachable when the
  capacity is `≤ 1`).

`fullCheck` is the endpoint-check chain of lines 259-277, evaluated on the
pre-append `last_time`; `tick_core` is the whole try-block. -/
def fullCheck (cfg : LoopConfig) (st : MeasState) (rd : Reading) :
    Option ℚ → Option Verdict
  | none => some Verdict.Faulted
  | some lt =>
    if 10 * cfg.tau ≤ lt then
      if (winOvf cfg st rd).any id then none
      else if devPct cfg st rd ≤ cfg.tol then
        some (Verdict.Converged (meanR cfg st rd) (meanTheta cfg st rd)
          (devPct cfg st rd))
      else if cfg.timeout ≤ curT cfg st then
        some (Verdict.TimedOut (meanR cfg st rd) (meanTheta cfg st rd))
      else none
    else none

def tick_core (cfg : LoopConfig) (st : MeasState) (rd : Reading) :
    MeasState × Option Verdict :=
  if meanR cfg st rd = 0 then
    (⟨winT cfg st, winR cfg st rd, winTheta cfg st rd, winOvf cfg st rd,
      st.rsWin, st.devWin, st.thetasWin⟩, some Verdict.Faulted)
  else
    (⟨winT cfg st, winR cfg st rd, winTheta cfg st rd, winOvf cfg st rd,
      dqAppend cfg.cap st.rsWin (meanR cfg st rd),
      dqAppend cfg.cap st.devWin (devPct cfg st rd),
      dqAppend cfg.cap st.thetasWin (meanTheta cfg st rd)⟩,
      if (winT cfg st).length = cfg.cap then fullCheck cfg st rd (lastT st)
      else none)

/-- A whole call of `execute_sample`: when the try-block falls through to the
end, `should_stop()` is consulted (line 279) and the loop either quits with
`Aborted` or keeps running (`Continue`). -/
def execute_sample (cfg : LoopConfig) (stop : Bool) (st : MeasState)
    (rd : Reading) : MeasState × Verdict :=
  ((tick_core cfg st rd).1,
   (tick_core cfg st rd).2.getD (if stop then Verdict.Aborted else Verdict.Continue))

/-- The timer-driven sampling loop of `execute`: ticks consume readings in
order; `stop i` is the value `should_stop()` returns during tick `i`.
Returns the final state, the index of the tick on which the loop quit, and
its verdict (`Continue` with index `= ` number of readings when the supplied
readings run out before any terminal verdict). -/
def runLoop (cfg : LoopConfig) (stop : Nat → Bool) :
    MeasState → Nat → List Reading → MeasState × Nat × Verdict
  | st, i, [] => (st, i, Verdict.Continue)
  | st, i, rd :: rds =>
    match execute_sample cfg (stop i) st rd with
    | (st1, Verdict.Continue) => runLoop cfg stop st1 (i + 1) rds
    | (st1, v) => (st1, i, v)

/-! ## AcFreqProcedure.generate_auto_parameters -/

/-- `TIME_CONSTANTS_MAP` (frequency threshold ↦ time constant); the float
literals `0.001, 0.01, 0.1, 1.0, 3.0, 10.0` and the key `0.34` are written as
the exact fractions they denote. -/
def TIME_CONSTANTS_MAP : List (ℚ × ℚ) :=
  [(102000, 1/1000), (10000, 1/100), (1000, 1/10), (100, 1), (10, 3),
   (1, 10), (17/50, 30)]

/-- `SLOPES_MAP` (frequency threshold ↦ filter slope, dB/octave). -/
def SLOPES_MAP : List (ℚ × ℤ) :=
  [(102000, 24)]

/-- `MIN_SAMPLE_TIME = 0.2`. -/
def MIN_SAMPLE_TIME : ℚ := 1/5

/-- `MIN_WINDOW_SAMPLES = 5`. -/
def MIN_WINDOW_SAMPLES : ℤ := 5

/-- The local `samp_per_tau = 20` of `generate_auto_parameters`. -/
def samp_per_tau : ℚ := 20

/-- Helper for `min(...)` over the pairs of a table whose first minimal key
wins; Python's dict keys are distinct, so this agrees with
`min(keys)` followed by the dict lookup of that key. -/
def minByKey {β : Type} : List (ℚ × β) → Option (ℚ × β)
  | [] => none
  | p :: ps => some (ps.foldl (fun q r => if r.1 < q.1 then r else q) p)

/-- `min(filter(lambda f: f >= p_freq, table))` together with the subsequent
dict lookup: the table entry whose key is the smallest key `≥ f`, or `none`
when the filtered sequence is empty (Python: `min()` raises `ValueError`). -/
def lookupMinKeyGeq {β : Type} (tbl : List (ℚ × β)) (f : ℚ) : Option (ℚ × β) :=
  minByKey (tbl.filter (fun p => decide (f ≤ p.1)))

/-- The failure of `generate_auto_parameters` when the requested frequency
exceeds every table threshold: `min()` of an empty sequence raises
`ValueError`, the error the design documents as `OutOfRangeError`. -/
inductive TuneError where
  | outOfRange
  deriving DecidableEq

/-- The auto-generated acquisition parameters
(`auto_tau`, `auto_slope`, `auto_tsamp`, `auto_timeout`, `window_samples`). -/
structure AutoParams where
  auto_tau : ℚ
  auto_slope : ℤ
  auto_tsamp : ℚ
  auto_timeout : ℚ
  window_samples : ℤ
  deriving DecidableEq

/-- Python 3 `round()` (round half to even) on an exact rational. -/
def roundHalfEven (q : ℚ) : ℤ :=
  if q - (q.floor : ℚ) < 1/2 then q.floor
  else if (1/2 : ℚ) < q - (q.floor : ℚ) then q.floor + 1
  else if q.floor % 2 = 0 then q.floor else q.floor + 1

/-- `AcFreqProcedure.generate_auto_parameters` (lines 103-128): pick the
smallest table key `≥ frequency` in each table, derive the sample time (with
the `MIN_SAMPLE_TIME` clamp and the window recomputation it entails) and the
timeout `100 * auto_tau`. -/
def generate_auto_parameters (frequency : ℚ) (tau_window : ℤ) :
    Except TuneError AutoParams :=
  match lookupMinKeyGeq TIME_CONSTANTS_MAP frequency with
  | none => Except.error TuneError.outOfRange
  | some tp =>
    match lookupMinKeyGeq SLOPES_MAP frequency with
    | none => Except.error TuneError.outOfRange
    | some sp =>
      if tp.2 / samp_per_tau < MIN_SAMPLE_TIME then
        Except.ok ⟨tp.2, sp.2, MIN_SAMPLE_TIME, 100 * tp.2,
          max (roundHalfEven ((tau_window : ℚ) * tp.2 / MIN_SAMPLE_TIME))
            MIN_WINDOW_SAMPLES⟩
      else
        Except.ok ⟨tp.2, sp.2, tp.2 / samp_per_tau, 100 * tp.2,
          tau_window * 20⟩

/-- `startup` creates the deques with `maxlen = window_samples`; together
with the tolerance parameter this is all that `execute_sample` reads. -/
def cfgOfParams (P : AutoParams) (tolerance : ℚ) : LoopConfig :=
  ⟨P.auto_tau, P.auto_tsamp, P.auto_timeout, P.window_samples.toNat, tolerance⟩

/-! ## AcSweepProcedure.execute -/

/-- One emitted sweep row (`DATA_COLUMNS` of `AcSweepProcedure`). -/
structure SweepRow where
  freq : ℚ
  r : ℚ
  gain : ℚ
  theta : ℚ
  dev : ℚ
  deriving DecidableEq

/-- `INPUT_VOLTAGE = 0.01`. -/
def INPUT_VOLTAGE : ℚ := 1/100

/-- The failures of `AcSweepProcedure.execute`.  `unboundLocal` models the
`UnboundLocalError` raised by `fmax, fmin = fmin, fmax` (line 78): the
assignment makes `fmin`/`fmax` function-local names, and the right-hand side
reads them before anything has bound them. -/
inductive SweepError where
  | unboundLocal
  deriving DecidableEq

/-- The measurement loop of `AcSweepProcedure.execute` (lines 82-97):
`meas f doReset` is the `(r, theta, dev)` triple `execute_single_freq`
returns for frequency `f` (with `do_reset` true only for the first point);
`lg` is the real-valued `np.log10` used for the gain column, taken as a
parameter; `stop i` is `should_stop()` as polled after emitting point `i`.
When it is true the loop breaks, keeping the rows emitted so far. -/
def sweepLoop (meas : ℚ → Bool → ℚ × ℚ × ℚ) (lg : ℚ → ℚ)
    (stop : Nat → Bool) : List ℚ → Nat → Bool → List SweepRow
  | [], _, _ => []
  | f :: fs, i, doReset =>
    match meas f doReset with
    | (r, th, dv) =>
      ⟨f, r, 20 * lg (r / INPUT_VOLTAGE), th, dv⟩ ::
        (if stop i then [] else sweepLoop meas lg stop fs (i + 1) false)

/-- `AcSweepProcedure.execute` (lines 76-97).  The frequency sequence
`np.geomspace(fmax, fmin, num_points)` (with `num_points` from the
real-valued `np.log10`) is abstracted as the parameter `freqTable`; the
claims settled here do not depend on the actual frequency values.  When
`fmin > fmax`, the attempted swap raises `UnboundLocalError` before the
frequency list is built, so no point is ever measured. -/
def sweepExecute (meas : ℚ → Bool → ℚ × ℚ × ℚ) (lg : ℚ → ℚ)
    (freqTable : ℚ → ℚ → List ℚ) (fmin fmax : ℚ) (stop : Nat → Bool) :
    Except SweepError (List SweepRow) :=
  if fmax < fmin then Except.error SweepError.unboundLocal
  else Except.ok (sweepLoop meas lg stop (freqTable fmin fmax) 0 true)

end Sr830


namespace Sr830

/-! ## Concrete instances used by the scenario theorems -/

/-- The loop configuration obtained for the end-to-end scenario of the
design's §8: frequency 50 Hz, `tau_window = 1`, tolerance 2 %.  Its value is
`generate_auto_parameters 50 1` paired with tolerance 2 (proved below). -/
def cfg50 : LoopConfig := cfgOfParams ⟨1, 24, 1/5, 100, 5⟩ 2

/-- The five scenario readings: magnitudes `1.00, 1.01, 0.99, 1.00, 1.00`,
phase 0, status byte 0 (no overload). -/
def rds5 : List Reading :=
  [⟨1, 0, 0⟩, ⟨101/100, 0, 0⟩, ⟨99/100, 0, 0⟩, ⟨1, 0, 0⟩, ⟨1, 0, 0⟩]

/-- The scenario readings extended to 52 ticks by holding the magnitude at
`1.00`. -/
def rds52 : List Reading :=
  ⟨1, 0, 0⟩ :: ⟨101/100, 0, 0⟩ :: ⟨99/100, 0, 0⟩ :: List.replicate 49 ⟨1, 0, 0⟩

/-- The loop configuration `generate_auto_parameters` yields for 102000 Hz
with `tau_window = 1` and tolerance 2 % (proved below):
`tau = 0.001`, `tsamp = 0.2`, `timeout = 0.1`, capacity 5. -/
def cfg4 : LoopConfig := cfgOfParams ⟨1/1000, 24, 1/5, 1/10, 5⟩ 2

/-- A window state holding four ticks, with one overloaded sample still in
the window and a spread of magnitudes (mean becomes `1.2` after the next
unit sample, deviation `66.67 %`). -/
def st4 : MeasState :=
  ⟨[0, 1/5, 2/5, 3/5], [1, 2, 1, 1], [0, 0, 0, 0],
   [true, false, false, false], [], [], []⟩

/-- The same four-tick window state as `st4` but with no overloaded
sample. -/
def st4b : MeasState :=
  ⟨[0, 1/5, 2/5, 3/5], [1, 2, 1, 1], [0, 0, 0, 0],
   [false, false, false, false], [], [], []⟩

/-- A deterministic fake per-point measurement for the sweep theorems. -/
def meas0 : ℚ → Bool → ℚ × ℚ × ℚ := fun _ _ => (1, 2, 3)

/-- A stand-in for `np.log10` in concrete sweep instances. -/
def logZero : ℚ → ℚ := fun _ => 0

/-- A stand-in frequency table for concrete sweep instances. -/
def ft0 : ℚ → ℚ → List ℚ := fun _ _ => []

/-- A cancel signal observed while the first sweep point is being taken. -/
def stop0 : Nat → Bool := fun i => decide (i = 0)

/-! ## Helper lemmas: smallest-key lookup -/

theorem foldlMin_spec {β : Type} (ps : List (ℚ × β)) (a : ℚ × β) :
    (ps.foldl (fun q r => if r.1 < q.1 then r else q) a = a ∨
      ps.foldl (fun q r => if r.1 < q.1 then r else q) a ∈ ps) ∧
    (ps.foldl (fun q r => if r.1 < q.1 then r else q) a).1 ≤ a.1 ∧
    ∀ q ∈ ps, (ps.foldl (fun q r => if r.1 < q.1 then r else q) a).1 ≤ q.1 := by
  induction ps generalizing a with
  | nil => simp
  | cons p ps ih =>
    simp only [List.foldl_cons, List.mem_cons]
    obtain ⟨h1, h2, h3⟩ := ih (if p.1 < a.1 then p else a)
    refine ⟨?_, ?_, ?_⟩
    · rcases h1 with h | h
      · rw [h]; split_ifs with hc
        · exact Or.inr (Or.inl rfl)
        · exact Or.inl rfl
      · exact Or.inr (Or.inr h)
    · refine le_trans h2 ?_
      split_ifs with hc
      · exact le_of_lt hc
      · exact le_refl _
    · intro q hq
      rcases hq with rfl | hq
      · refine le_trans h2 ?_
        split_ifs with hc
        · exact le_refl _
        · exact not_lt.mp hc
      · exact h3 q hq

theorem minByKey_spec {β : Type} {l : List (ℚ × β)} {p : ℚ × β}
    (h : minByKey l = some p) : p ∈ l ∧ ∀ q ∈ l, p.1 ≤ q.1 := by
  cases l with
  | nil => simp [minByKey] at h
  | cons x xs =>
    simp only [minByKey, Option.some.injEq] at h
    subst h
    obtain ⟨h1, h2, h3⟩ := foldlMin_spec xs x
    refine ⟨?_, ?_⟩
    · rcases h1 with h | h
      · rw [h]; exact List.mem_cons_self _ _
      · exact List.mem_cons_of_mem _ h
    · intro q hq
      rcases List.mem_cons.mp hq with rfl | hq
      · exact h2
      · exact h3 q hq

theorem minByKey_ne_none {β : Type} {l : List (ℚ × β)} (h : l ≠ []) :
    ∃ p, minByKey l = some p := by
  cases l with
  | nil => exact absurd rfl h
  | cons x xs => exact ⟨_, rfl⟩

theorem lookupMinKeyGeq_spec {β : Type} {tbl : List (ℚ × β)} {f : ℚ}
    {p : ℚ × β} (h : lookupMinKeyGeq tbl f = some p) :
    p ∈ tbl ∧ f ≤ p.1 ∧ ∀ q ∈ tbl, f ≤ q.1 → p.1 ≤ q.1 := by
  obtain ⟨hm, hmin⟩ := minByKey_spec h
  rw [List.mem_filter] at hm
  exact ⟨hm.1, of_decide_eq_true hm.2,
    fun q hq hfq => hmin q (List.mem_filter.mpr ⟨hq, decide_eq_true hfq⟩)⟩

theorem lookupMinKeyGeq_isSome {β : Type} (tbl : List (ℚ × β)) (f : ℚ)
    (x : ℚ × β) (hx : x ∈ tbl) (hfx : f ≤ x.1) :
    ∃ p, lookupMinKeyGeq tbl f = some p :=
  minByKey_ne_none
    (List.ne_nil_of_mem (List.mem_filter.mpr ⟨hx, decide_eq_true hfx⟩))

theorem lookupMinKeyGeq_none {β : Type} {tbl : List (ℚ × β)} {f B : ℚ}
    (hb : ∀ q ∈ tbl, q.1 ≤ B) (h : B < f) : lookupMinKeyGeq tbl f = none := by
  unfold lookupMinKeyGeq
  have hfil : tbl.filter (fun p => decide (f ≤ p.1)) = [] := by
    rw [List.filter_eq_nil_iff]
    intro p hp
    simp only [decide_eq_true_eq]
    exact not_le.mpr (lt_of_le_of_lt (hb p hp) h)
  rw [hfil]
  rfl

end Sr830

namespace Sr830

/-! ## Helper lemmas: the sweep loop -/

theorem sweepLoop_prefixOf_noStop (meas : ℚ → Bool → ℚ × ℚ × ℚ) (lg : ℚ → ℚ)
    (stop : Nat → Bool) :
    ∀ (fs : List ℚ) (i : Nat) (d : Bool),
      sweepLoop meas lg stop fs i d <+: sweepLoop meas lg (fun _ => false) fs i d := by
  intro fs
  induction fs with
  | nil => intro i d; simp [sweepLoop]
  | cons f fs ih =>
    intro i d
    rcases hm : meas f d with ⟨r, th, dv⟩
    simp only [sweepLoop, hm]
    cases hs : stop i with
    | true =>
      exact ⟨sweepLoop meas lg (fun _ => false) fs (i + 1) false, rfl⟩
    | false =>
      obtain ⟨t, ht⟩ := ih (i + 1) false
      refine ⟨t, ?_⟩
      simp only [Bool.false_eq_true, if_false, List.cons_append, ht]

theorem sweepLoop_noStop_length (meas : ℚ → Bool → ℚ × ℚ × ℚ) (lg : ℚ → ℚ) :
    ∀ (fs : List ℚ) (i : Nat) (d : Bool),
      (sweepLoop meas lg (fun _ => false) fs i d).length = fs.length := by
  intro fs
  induction fs with
  | nil => intro i d; simp [sweepLoop]
  | cons f fs ih =>
    intro i d
    rcases hm : meas f d with ⟨r, th, dv⟩
    simp [sweepLoop, hm, ih]

theorem sweepLoop_stop_length_le (meas : ℚ → Bool → ℚ × ℚ × ℚ) (lg : ℚ → ℚ)
    (stop : Nat → Bool) :
    ∀ (fs : List ℚ) (i k : Nat) (d : Bool), stop (i + k) = true →
      (sweepLoop meas lg stop fs i d).length ≤ k + 1 := by
  intro fs
  induction fs with
  | nil => intro i k d _; simp [sweepLoop]
  | cons f fs ih =>
    intro i k d h
    rcases hm : meas f d with ⟨r, th, dv⟩
    simp only [sweepLoop, hm]
    cases hs : stop i with
    | true => simp
    | false =>
      cases k with
      | zero =>
        rw [Nat.add_zero] at h
        rw [h] at hs
        cases hs
      | succ k =>
        have hidx : i + 1 + k = i + (k + 1) := by omega
        have hrec := ih (i + 1) k false (by rw [hidx]; exact h)
        simp only [hs, if_neg Bool.false_ne_true, List.length_cons]
        omega

/-! ## Helper lemma: outcomes a tick can quit with before the stop check -/

theorem tick_quit_cases (cfg : LoopConfig) (st : MeasState) (rd : Reading)
    (v : Verdict) (h : (tick_core cfg st rd).2 = some v) :
    v ≠ Verdict.Continue ∧ v ≠ Verdict.Aborted := by
  unfold tick_core at h
  by_cases h0 : meanR cfg st rd = 0
  · rw [if_pos h0] at h
    simp only [Option.some.injEq] at h
    subst h
    exact ⟨fun hc => Verdict.noConfusion hc, fun hc => Verdict.noConfusion hc⟩
  · rw [if_neg h0] at h
    by_cases hfull : (winT cfg st).length = cfg.cap
    · rw [if_pos hfull] at h
      cases hl : lastT st with
      | none =>
        rw [hl] at h
        simp only [fullCheck, Option.some.injEq] at h
        subst h
        exact ⟨fun hc => Verdict.noConfusion hc, fun hc => Verdict.noConfusion hc⟩
      | some lt =>
        rw [hl] at h
        simp only [fullCheck] at h
        by_cases hsettle : 10 * cfg.tau ≤ lt
        · rw [if_pos hsettle] at h
          cases hov : (winOvf cfg st rd).any id with
          | true =>
            rw [if_pos hov] at h
            simp at h
          | false =>
            rw [if_neg (by simp [hov])] at h
            by_cases hdev : devPct cfg st rd ≤ cfg.tol
            · rw [if_pos hdev] at h
              simp only [Option.some.injEq] at h
              subst h
              exact ⟨fun hc => Verdict.noConfusion hc, fun hc => Verdict.noConfusion hc⟩
            · rw [if_neg hdev] at h
              by_cases hto : cfg.timeout ≤ curT cfg st
              · rw [if_pos hto] at h
                simp only [Option.some.injEq] at h
                subst h
                exact ⟨fun hc => Verdict.noConfusion hc, fun hc => Verdict.noConfusion hc⟩
              · rw [if_neg hto] at h
                simp at h
        · rw [if_neg hsettle] at h
          simp at h
    · rw [if_neg hfull] at h
      simp at h

end Sr830

namespace Sr830

/-! ## Claim C5 -/

/-- Claim C5 (confirmed): for every positive frequency at or below the
largest threshold key (102000), `generate_auto_parameters` succeeds, its
`auto_tau` is the value bound to the smallest `TIME_CONSTANTS_MAP` key that
is `≥` the frequency, and its `auto_slope` is the value bound to the
smallest `SLOPES_MAP` key that is `≥` the frequency. -/
theorem c5_tuner_smallest_key (f : ℚ) (w : ℤ) (_hf : 0 < f)
    (hmax : f ≤ 102000) :
    ∃ P : AutoParams, generate_auto_parameters f w = Except.ok P ∧
      (∃ k, (k, P.auto_tau) ∈ TIME_CONSTANTS_MAP ∧ f ≤ k ∧
        ∀ q ∈ TIME_CONSTANTS_MAP, f ≤ q.1 → k ≤ q.1) ∧
      (∃ k, (k, P.auto_slope) ∈ SLOPES_MAP ∧ f ≤ k ∧
        ∀ q ∈ SLOPES_MAP, f ≤ q.1 → k ≤ q.1) := by
  obtain ⟨tp, hpt⟩ := lookupMinKeyGeq_isSome TIME_CONSTANTS_MAP f
    (102000, 1/1000) (by simp [TIME_CONSTANTS_MAP]) hmax
  obtain ⟨sp, hps⟩ := lookupMinKeyGeq_isSome SLOPES_MAP f
    (102000, 24) (by simp [SLOPES_MAP]) hmax
  obtain ⟨ht1, ht2, ht3⟩ := lookupMinKeyGeq_spec hpt
  obtain ⟨hs1, hs2, hs3⟩ := lookupMinKeyGeq_spec hps
  by_cases hc : tp.2 / samp_per_tau < MIN_SAMPLE_TIME
  · refine ⟨⟨tp.2, sp.2, MIN_SAMPLE_TIME, 100 * tp.2,
      max (roundHalfEven ((w : ℚ) * tp.2 / MIN_SAMPLE_TIME)) MIN_WINDOW_SAMPLES⟩,
      ?_, ⟨tp.1, ?_, ht2, ht3⟩, ⟨sp.1, ?_, hs2, hs3⟩⟩
    · simp [generate_auto_parameters, hpt, hps, hc]
    · simpa using ht1
    · simpa using hs1
  · refine ⟨⟨tp.2, sp.2, tp.2 / samp_per_tau, 100 * tp.2, w * 20⟩,
      ?_, ⟨tp.1, ?_, ht2, ht3⟩, ⟨sp.1, ?_, hs2, hs3⟩⟩
    · simp [generate_auto_parameters, hpt, hps, hc]
    · simpa using ht1
    · simpa using hs1

/-- Claim C5 witness: the theorem applied at frequency 50 Hz,
`tau_window = 1`. -/
theorem c5_witness :
    ∃ P : AutoParams, generate_auto_parameters 50 1 = Except.ok P ∧
      (∃ k, (k, P.auto_tau) ∈ TIME_CONSTANTS_MAP ∧ (50 : ℚ) ≤ k ∧
        ∀ q ∈ TIME_CONSTANTS_MAP, (50 : ℚ) ≤ q.1 → k ≤ q.1) ∧
      (∃ k, (k, P.auto_slope) ∈ SLOPES_MAP ∧ (50 : ℚ) ≤ k ∧
        ∀ q ∈ SLOPES_MAP, (50 : ℚ) ≤ q.1 → k ≤ q.1) :=
  c5_tuner_smallest_key 50 1 (by norm_num) (by norm_num)

/-! ## Claim C6 -/

/-- Claim C6 (confirmed): for every frequency strictly above every threshold
key, `generate_auto_parameters` fails with the out-of-range error (the
`ValueError` that `min()` raises on the empty filtered key sequence, which
the design's taxonomy names `OutOfRangeError`), and with no other outcome. -/
theorem c6_out_of_range (f : ℚ) (w : ℤ) (h : 102000 < f) :
    generate_auto_parameters f w = Except.error TuneError.outOfRange := by
  have hbound : ∀ q ∈ TIME_CONSTANTS_MAP, q.1 ≤ (102000 : ℚ) := by
    simp only [TIME_CONSTANTS_MAP, List.mem_cons, List.not_mem_nil, or_false]
    rintro q (rfl | rfl | rfl | rfl | rfl | rfl | rfl) <;> norm_num
  have ht : lookupMinKeyGeq TIME_CONSTANTS_MAP f = none :=
    lookupMinKeyGeq_none hbound h
  simp [generate_auto_parameters, ht]

/-- Claim C6 witness: the theorem applied at frequency 200000 Hz. -/
theorem c6_witness :
    generate_auto_parameters 200000 1 = Except.error TuneError.outOfRange :=
  c6_out_of_range 200000 1 (by norm_num)

/-! ## Claim C9 -/

/-- Claim C9 (confirmed): for every frequency within the parameter bounds
and every `tau_window ≥ 1`, the derived window capacity is at least
`MIN_WINDOW_SAMPLES = 5`; when the sample interval is not clamped the
capacity equals `tau_window * 20 ≥ 20`, and when it is clamped the capacity
is the rounded `tau_window * auto_tau / MIN_SAMPLE_TIME` floored at 5. -/
theorem c9_window_floor (f : ℚ) (w : ℤ) (_hfmin : 1/1000 ≤ f)
    (hfmax : f ≤ 102000) (hw : 1 ≤ w) :
    ∃ P : AutoParams, generate_auto_parameters f w = Except.ok P ∧
      5 ≤ P.window_samples ∧
      ((¬ P.auto_tau / samp_per_tau < MIN_SAMPLE_TIME ∧
          P.window_samples = w * 20 ∧ 20 ≤ P.window_samples) ∨
        (P.auto_tau / samp_per_tau < MIN_SAMPLE_TIME ∧
          P.window_samples =
            max (roundHalfEven ((w : ℚ) * P.auto_tau / MIN_SAMPLE_TIME))
              MIN_WINDOW_SAMPLES)) := by
  obtain ⟨tp, hpt⟩ := lookupMinKeyGeq_isSome TIME_CONSTANTS_MAP f
    (102000, 1/1000) (by simp [TIME_CONSTANTS_MAP]) hfmax
  obtain ⟨sp, hps⟩ := lookupMinKeyGeq_isSome SLOPES_MAP f
    (102000, 24) (by simp [SLOPES_MAP]) hfmax
  by_cases hc : tp.2 / samp_per_tau < MIN_SAMPLE_TIME
  · refine ⟨⟨tp.2, sp.2, MIN_SAMPLE_TIME, 100 * tp.2,
      max (roundHalfEven ((w : ℚ) * tp.2 / MIN_SAMPLE_TIME)) MIN_WINDOW_SAMPLES⟩,
      ?_, ?_, Or.inr ⟨hc, rfl⟩⟩
    · simp [generate_auto_parameters, hpt, hps, hc]
    · exact le_max_right _ _
  · refine ⟨⟨tp.2, sp.2, tp.2 / samp_per_tau, 100 * tp.2, w * 20⟩,
      ?_, ?_, Or.inl ⟨hc, rfl, by show (20 : ℤ) ≤ w * 20; omega⟩⟩
    · simp [generate_auto_parameters, hpt, hps, hc]
    · show (5 : ℤ) ≤ w * 20
      omega

/-- Claim C9 witness: the theorem applied at frequency 50 Hz,
`tau_window = 1`. -/
theorem c9_witness :
    ∃ P : AutoParams, generate_auto_parameters 50 1 = Except.ok P ∧
      5 ≤ P.window_samples ∧
      ((¬ P.auto_tau / samp_per_tau < MIN_SAMPLE_TIME ∧
          P.window_samples = 1 * 20 ∧ 20 ≤ P.window_samples) ∨
        (P.auto_tau / samp_per_tau < MIN_SAMPLE_TIME ∧
          P.window_samples =
            max (roundHalfEven ((1 : ℚ) * P.auto_tau / MIN_SAMPLE_TIME))
              MIN_WINDOW_SAMPLES)) :=
  c9_window_floor 50 1 (by norm_num) (by norm_num) (by norm_num)

end Sr830

namespace Sr830

/-! ## Claim C10 -/

/-- Claim C10 (confirmed): whenever the sweep is invoked with
`fmin > fmax`, its `execute` step fails before measuring any point: the
attempted swap `fmax, fmin = fmin, fmax` reads the function-local names
`fmin`/`fmax` before anything has bound them, raising `UnboundLocalError`,
so no swap happens and no sweep row is produced. -/
theorem c10_swap_unbound (meas : ℚ → Bool → ℚ × ℚ × ℚ) (lg : ℚ → ℚ)
    (ft : ℚ → ℚ → List ℚ) (fmin fmax : ℚ) (stop : Nat → Bool)
    (h : fmax < fmin) :
    sweepExecute meas lg ft fmin fmax stop =
      Except.error SweepError.unboundLocal := by
  unfold sweepExecute
  rw [if_pos h]

/-- Claim C10 witness: a sweep with start frequency 2 and stop frequency 1
fails with the unbound-local error. -/
theorem c10_witness :
    sweepExecute meas0 logZero ft0 2 1 (fun _ => false) =
      Except.error SweepError.unboundLocal :=
  c10_swap_unbound meas0 logZero ft0 2 1 (fun _ => false) (by norm_num)

/-! ## Claim C8 -/

/-- Claim C8 counterexample: a one-point sweep whose cancel signal is
already set while the only point runs.  The loop still measures and emits
that point before polling `should_stop`, so the cancelled sweep returns
exactly the rows of the uncancelled sweep — a prefix, but not a strict
one, although cancellation fired mid-sweep (at point index 0, with one
point in the sweep). -/
theorem c8_counterexample :
    (fun _ : Nat => true) 0 = true ∧ (0 : Nat) < ([(1 : ℚ)]).length ∧
    sweepLoop meas0 logZero (fun _ => true) [1] 0 true =
      sweepLoop meas0 logZero (fun _ => false) [1] 0 true := by
  refine ⟨rfl, by norm_num, ?_⟩
  with_unfolding_all decide

/-- Claim C8 (amended): the rows a cancelled sweep collects are always a
prefix (same frequencies, same order, same values in this loop-level model)
of the rows the uncancelled sweep would produce; the prefix is strict
whenever the cancel signal is observed at a point index before the last
point, since the loop breaks right after emitting the point during which
cancellation was seen. -/
theorem c8_cancel_prefix_of_uncancelled (meas : ℚ → Bool → ℚ × ℚ × ℚ) (lg : ℚ → ℚ)
    (stop : Nat → Bool) (fs : List ℚ) :
    (sweepLoop meas lg stop fs 0 true <+:
      sweepLoop meas lg (fun _ => false) fs 0 true) ∧
    ∀ i, stop i = true → i + 1 < fs.length →
      (sweepLoop meas lg stop fs 0 true).length <
        (sweepLoop meas lg (fun _ => false) fs 0 true).length ∧
      sweepLoop meas lg stop fs 0 true ≠
        sweepLoop meas lg (fun _ => false) fs 0 true := by
  refine ⟨sweepLoop_prefixOf_noStop meas lg stop fs 0 true, ?_⟩
  intro i hi hlen
  have hle : (sweepLoop meas lg stop fs 0 true).length ≤ i + 1 :=
    sweepLoop_stop_length_le meas lg stop fs 0 i true (by simpa using hi)
  have hfull : (sweepLoop meas lg (fun _ => false) fs 0 true).length = fs.length :=
    sweepLoop_noStop_length meas lg fs 0 true
  constructor
  · omega
  · intro he
    have hsame : (sweepLoop meas lg stop fs 0 true).length = fs.length := by
      rw [he, hfull]
    omega

/-- Claim C8 witness: a two-point sweep cancelled during the first point
yields a strictly shorter prefix of the uncancelled rows. -/
theorem c8_witness :
    (sweepLoop meas0 logZero stop0 [1, 2] 0 true <+:
      sweepLoop meas0 logZero (fun _ => false) [1, 2] 0 true) ∧
    (sweepLoop meas0 logZero stop0 [1, 2] 0 true).length <
      (sweepLoop meas0 logZero (fun _ => false) [1, 2] 0 true).length :=
  ⟨(c8_cancel_prefix_of_uncancelled meas0 logZero stop0 [1, 2]).1,
   ((c8_cancel_prefix_of_uncancelled meas0 logZero stop0 [1, 2]).2 0 (by decide) (by norm_num)).1⟩

/-! ## Claim C2 -/

/-- Claim C2 counterexample: on the very first tick with a reading of
magnitude 0, the window mean magnitude is 0 and the tick ends in the
exception path (`Faulted`), not in an unbounded-deviation report: the
deviation division is not guarded. -/
theorem c2_counterexample :
    meanR cfg50 st0 ⟨0, 0, 0⟩ = 0 ∧
    (tick_core cfg50 st0 ⟨0, 0, 0⟩).2 = some Verdict.Faulted := by
  with_unfolding_all decide

/-- Claim C2 (amended): whenever the post-append window mean magnitude is
zero, the tick's deviation division raises `ZeroDivisionError`; the
catch-all handler records it and quits the loop as a failure (`Faulted`) —
the deviation is never reported as unbounded/infinite. -/
theorem c2_zero_mean_faults (cfg : LoopConfig) (st : MeasState) (rd : Reading)
    (h : meanR cfg st rd = 0) :
    (tick_core cfg st rd).2 = some Verdict.Faulted := by
  unfold tick_core
  rw [if_pos h]

/-- Claim C2 witness: the amended theorem applied to the zero-magnitude
first tick. -/
theorem c2_witness :
    meanR cfg50 st0 ⟨0, 0, 1⟩ = 0 ∧
    (tick_core cfg50 st0 ⟨0, 0, 1⟩).2 = some Verdict.Faulted :=
  ⟨by with_unfolding_all decide,
   c2_zero_mean_faults cfg50 st0 ⟨0, 0, 1⟩ (by with_unfolding_all decide)⟩

end Sr830

namespace Sr830

/-! ## Claim C7 -/

/-- If a tick quits with `Converged`, the post-append overload window was
overload-free: the convergence branch sits inside the `not any(OVF)`
guard. -/
theorem tick_converged_no_ovf (cfg : LoopConfig) (st : MeasState)
    (rd : Reading) (r th d : ℚ)
    (h : (tick_core cfg st rd).2 = some (Verdict.Converged r th d)) :
    (winOvf cfg st rd).any id = false := by
  unfold tick_core at h
  by_cases h0 : meanR cfg st rd = 0
  · rw [if_pos h0] at h
    simp at h
  · rw [if_neg h0] at h
    by_cases hfull : (winT cfg st).length = cfg.cap
    · rw [if_pos hfull] at h
      cases hl : lastT st with
      | none =>
        rw [hl] at h
        simp [fullCheck] at h
      | some lt =>
        rw [hl] at h
        simp only [fullCheck] at h
        by_cases hsettle : 10 * cfg.tau ≤ lt
        · rw [if_pos hsettle] at h
          cases hov : (winOvf cfg st rd).any id with
          | true =>
            rw [if_pos hov] at h
            simp at h
          | false => rfl
        · rw [if_neg hsettle] at h
          simp at h
    · rw [if_neg hfull] at h
      simp at h

/-- Claim C7 (confirmed): a tick whose full post-append window contains at
least one overloaded sample never yields `Converged` — whatever the
deviation, the elapsed time, and the cancel flag are. -/
theorem c7_overload_no_convergence (cfg : LoopConfig) (stop : Bool)
    (st : MeasState) (rd : Reading) (r th d : ℚ)
    (_hfull : (winT cfg st).length = cfg.cap)
    (hov : (winOvf cfg st rd).any id = true) :
    (execute_sample cfg stop st rd).2 ≠ Verdict.Converged r th d := by
  intro hc
  unfold execute_sample at hc
  cases hb : (tick_core cfg st rd).2 with
  | none =>
    rw [hb] at hc
    cases stop <;> simp at hc
  | some v =>
    rw [hb] at hc
    simp only [Option.getD_some] at hc
    subst hc
    have hno := tick_converged_no_ovf cfg st rd r th d hb
    rw [hno] at hov
    exact Bool.noConfusion hov

/-- Claim C7 witness: the theorem applied to the overloaded full window
`st4`, whose deviation and elapsed time would otherwise allow both
endpoint checks. -/
theorem c7_witness :
    (execute_sample cfg4 false st4 ⟨1, 0, 0⟩).2 ≠
      Verdict.Converged (6/5) 0 (200/3) :=
  c7_overload_no_convergence cfg4 false st4 ⟨1, 0, 0⟩ (6/5) 0 (200/3)
    (by with_unfolding_all decide) (by with_unfolding_all decide)

/-! ## Claim C4 -/

/-- Claim C4 counterexample: a full window containing an overloaded sample,
deviation `200/3 % > 2 %` (rule 4 does not hold), elapsed time
`0.8 s ≥ timeout 0.1 s` — yet the tick's verdict is `Continue`, not
`TimedOut`: the timeout branch sits inside the no-overload guard. -/
theorem c4_counterexample :
    (winT cfg4 st4).length = cfg4.cap ∧
    cfg4.timeout ≤ curT cfg4 st4 ∧
    (winOvf cfg4 st4 ⟨1, 0, 0⟩).any id = true ∧
    devPct cfg4 st4 ⟨1, 0, 0⟩ = 200/3 ∧
    ¬ devPct cfg4 st4 ⟨1, 0, 0⟩ ≤ cfg4.tol ∧
    (execute_sample cfg4 false st4 ⟨1, 0, 0⟩).2 = Verdict.Continue := by
  with_unfolding_all decide

/-- Claim C4 (amended): a tick yields `TimedOut` (carrying the window mean
magnitude and mean phase) under the chain the code implements: full window,
previous sample time at least `10 * auto_tau`, **no overloaded sample in
the window**, nonzero mean, deviation above tolerance, and elapsed time at
least the timeout.  With an overloaded sample in the window the same tick
yields `Continue` instead (see the counterexample). -/
theorem c4_timeout_requires_clean_window (cfg : LoopConfig) (stop : Bool)
    (st : MeasState) (rd : Reading) (lt : ℚ)
    (hrs : meanR cfg st rd ≠ 0)
    (hfull : (winT cfg st).length = cfg.cap)
    (hl : lastT st = some lt)
    (hsettle : 10 * cfg.tau ≤ lt)
    (hov : (winOvf cfg st rd).any id = false)
    (hdev : ¬ devPct cfg st rd ≤ cfg.tol)
    (hto : cfg.timeout ≤ curT cfg st) :
    (execute_sample cfg stop st rd).2 =
      Verdict.TimedOut (meanR cfg st rd) (meanTheta cfg st rd) := by
  have hq : (tick_core cfg st rd).2 =
      some (Verdict.TimedOut (meanR cfg st rd) (meanTheta cfg st rd)) := by
    unfold tick_core
    rw [if_neg hrs]
    show (if (winT cfg st).length = cfg.cap then fullCheck cfg st rd (lastT st)
      else none) = _
    rw [if_pos hfull, hl]
    simp only [fullCheck]
    rw [if_pos hsettle, if_neg (by simp [hov]), if_neg hdev, if_pos hto]
  unfold execute_sample
  rw [hq]
  rfl

/-- Claim C4 witness: the amended theorem applied to the overload-free full
window `st4b` with deviation `200/3 %` and elapsed time past the timeout. -/
theorem c4_witness :
    (execute_sample cfg4 false st4b ⟨1, 0, 0⟩).2 =
      Verdict.TimedOut (meanR cfg4 st4b ⟨1, 0, 0⟩) (meanTheta cfg4 st4b ⟨1, 0, 0⟩) :=
  c4_timeout_requires_clean_window cfg4 false st4b ⟨1, 0, 0⟩ (3/5)
    (by with_unfolding_all decide) (by with_unfolding_all decide)
    (by with_unfolding_all decide) (by with_unfolding_all decide)
    (by with_unfolding_all decide) (by with_unfolding_all decide)
    (by with_unfolding_all decide)

end Sr830

namespace Sr830

/-! ## Claim C1 -/

set_option maxHeartbeats 4000000 in
set_option maxRecDepth 100000 in
/-- Claim C1 counterexample: in the 52-tick scenario run with the cancel
signal raised from tick 51 on, tick 51 has `should_stop` true and also
meets the convergence condition; its verdict is `Converged`, not
`Aborted` — cancellation does not preempt the convergence check. -/
theorem c1_counterexample :
    (fun i => decide (51 ≤ i)) 51 = true ∧
    (runLoop cfg50 (fun i => decide (51 ≤ i)) st0 0 rds52).2 =
      (51, Verdict.Converged 1 0 0) := by
  refine ⟨rfl, ?_⟩
  with_unfolding_all decide

/-- Claim C1 (amended): on a tick where the caller has signaled
cancellation the loop always stops (the verdict is never `Continue`), but
the verdict is `Aborted` exactly when the tick would otherwise have kept
running: `should_stop` is polled after the convergence and timeout
branches, so a `Converged`, `TimedOut` or `Faulted` outcome on the same
tick wins over the cancellation. -/
theorem c1_cancellation_checked_last (cfg : LoopConfig) (st : MeasState)
    (rd : Reading) :
    (execute_sample cfg true st rd).2 ≠ Verdict.Continue ∧
    ((execute_sample cfg true st rd).2 = Verdict.Aborted ↔
      (execute_sample cfg false st rd).2 = Verdict.Continue) := by
  unfold execute_sample
  cases hb : (tick_core cfg st rd).2 with
  | none => simp
  | some v =>
    obtain ⟨h1, h2⟩ := tick_quit_cases cfg st rd v hb
    simp [h1, h2]

/-- Claim C1 witness: the amended theorem applied to a first-tick state. -/
theorem c1_witness :
    (execute_sample cfg50 true st0 ⟨1, 0, 0⟩).2 ≠ Verdict.Continue ∧
    ((execute_sample cfg50 true st0 ⟨1, 0, 0⟩).2 = Verdict.Aborted ↔
      (execute_sample cfg50 false st0 ⟨1, 0, 0⟩).2 = Verdict.Continue) :=
  c1_cancellation_checked_last cfg50 st0 ⟨1, 0, 0⟩

/-! ## Claim C3 -/

/-- Claim C3 counterexample: with the §8 scenario parameters (50 Hz,
capacity 5, tolerance 2 %), feeding exactly the five scenario magnitudes
gives deviation 1 % recorded on the 5th sample, yet after that tick the
loop is still `Continue`: convergence additionally requires the previous
sample time to reach `10 * auto_tau = 10 s`, and the 5th tick sits at
`0.8 s`. -/
theorem c3_counterexample :
    (runLoop cfg50 (fun _ => false) st0 0 rds5).1.devWin.getLast? = some 1 ∧
    (runLoop cfg50 (fun _ => false) st0 0 rds5).2 = (5, Verdict.Continue) := by
  with_unfolding_all decide

set_option maxHeartbeats 4000000 in
set_option maxRecDepth 100000 in
/-- Claim C3 (amended): frequency 50 Hz with `tau_window = 1` tunes to
`tau = 1 s` (smallest key `≥ 50` is 100), slope 24, sample time `0.2 s`,
timeout `100 s`, capacity 5; the deviation recorded on the 5th scenario
sample is exactly `1 % ≤ 2 %`, but the verdict after the 5 samples is
`Continue`, not `Converged`; holding the magnitude at `1.00` afterwards,
the loop first converges on the 52nd sample (0-based tick 51), the first
tick whose previous sample time reaches `10 * tau` in the exact-arithmetic
model. -/
theorem c3_scenario :
    generate_auto_parameters 50 1 = Except.ok ⟨1, 24, 1/5, 100, 5⟩ ∧
    cfg50 = cfgOfParams ⟨1, 24, 1/5, 100, 5⟩ 2 ∧
    (runLoop cfg50 (fun _ => false) st0 0 rds5).1.devWin.getLast? = some 1 ∧
    (runLoop cfg50 (fun _ => false) st0 0 rds5).2 = (5, Verdict.Continue) ∧
    (runLoop cfg50 (fun _ => false) st0 0 rds52).2 =
      (51, Verdict.Converged 1 0 0) := by
  refine ⟨by with_unfolding_all rfl, rfl, ?_, ?_, ?_⟩ <;> with_unfolding_all decide

end Sr830
